import Mathlib

/-!
Shallow embedding of `src/SPMEV.js` (speech emotion analyzer front-end).

The source is a single-threaded, event-driven script: a set of module-level
mutable variables (detectedEmotion, probabilities, isLoading, error, audioData,
fileName, isPlaying, volume, isMuted, emotionHistory, isRealTimeMode,
mediaRecorder, wavesurfer) mutated by event handlers.  Two handlers are
asynchronous (handleFileUpload and handleRealTimeAudioData): each runs a
synchronous segment up to its awaited fetch of /api/analyze-emotion, and the
rest of the handler runs later, when that request settles.  We embed this as a
state machine: a `Machine` holds the globals plus the set of in-flight
(pending) submissions and pending getUserMedia requests, and a schedule — a
list of `Action`s — drives it.  Each `Action` is one synchronous segment
(between suspension points), which is exactly the JS event-loop granularity.

Observable side effects that the globals do not record are tracked in `World`:
toast notifications, console.error lines, the number of getUserMedia calls
(device acquisitions) and the number of mediaRecorder.stop() calls.

Abstractions (none affect the mutations the claims are about):
- binary payloads (File objects, chunk blobs, object URLs) are carried as
  opaque ids / name+MIME records;
- `new Date()` timestamps in emotionHistory come from a logical clock that
  ticks on each append;
- `volume` is kept as a Nat (the source holds a float; no claim touches it);
- DOM/chart rendering inside updateUI/displayResults is presentational, except
  that updateUI recreates the wavesurfer instance when audioData is loaded,
  which we keep;
- the in-flight promise set (`pending`) is bookkeeping for the embedding: a
  fetch promise settles exactly once, so a resolved submission is removed.
-/

namespace SPMEV

/-- A user-selected file: name, MIME type, and an opaque id for its bytes
(`URL.createObjectURL(file)` is modelled as that id). -/
structure File where
  name : String
  mime : String
  id : Nat
deriving DecidableEq, Repr

/-- Body of a success response from /api/analyze-emotion:
`{ emotion, probabilities }`.  Probability values are opaque (no claim
computes with them), kept as a label-indexed association list. -/
structure ClassificationResult where
  emotion : String
  probabilities : List (String × Nat)
deriving DecidableEq, Repr

/-- Outcome of one fetch of /api/analyze-emotion, as seen by the handler after
its awaits: either the parsed JSON body, or the message of the thrown error (a
network failure, or the thrown Failed-to-analyze-audio Error raised when
`!response.ok`, or a body-parse failure — all reach the same catch). -/
inductive Response where
  | ok (res : ClassificationResult)
  | err (msg : String)
deriving DecidableEq, Repr

/-- One entry pushed by updateEmotionHistory: `{ time: new Date(), emotion }`. -/
structure HistoryEntry where
  time : Nat
  emotion : String
deriving DecidableEq, Repr

/-- The module-level mutable variables of SPMEV.js (the session state). -/
structure SessionState where
  detectedEmotion : Option String
  probabilities : Option (List (String × Nat))
  isLoading : Bool
  error : Option String
  audioData : Option Nat
  fileName : String
  isPlaying : Bool
  volume : Nat
  isMuted : Bool
  emotionHistory : List HistoryEntry
  isRealTimeMode : Bool
  mediaRecorder : Option Nat
  wavesurfer : Option Nat
deriving DecidableEq, Repr

/-- The session state plus the observable side effects the globals do not
record, and the logical clock used for history timestamps. -/
structure World where
  sess : SessionState
  toasts : List String
  consoleErrors : List String
  deviceRequests : Nat
  recorderStopCalls : Nat
  clock : Nat
deriving DecidableEq, Repr

/-- What kind of submission a pending classification request came from. -/
inductive PendingKind where
  | upload (f : File)
  | chunk (blobId : Nat)
deriving DecidableEq, Repr

/-- Whole machine: globals and observables, the issue-sequence counter (each
submission is numbered in issue order), the in-flight submissions, the number
of unsettled getUserMedia promises, and a fresh-id counter for recorders. -/
structure Machine where
  w : World
  nextSeq : Nat
  pending : List (Nat × PendingKind)
  pendingDevice : Nat
  nextRecorderId : Nat
deriving DecidableEq, Repr

/-- The kind of the in-flight submission numbered `i`, if any. -/
def pendingLookup (m : Machine) (i : Nat) : Option PendingKind :=
  (m.pending.find? (fun p => p.1 == i)).map (fun p => p.2)

/-- The MIME check of the upload handler — does file.type start with
the string audio/ — written over the character sequence
(String.startsWith itself does not reduce inside the kernel). -/
def mimeIsAudio (mime : String) : Bool :=
  "audio/".data.isPrefixOf mime.data

/-- `updateUI()`: rendering of the loading indicator, error text, results and
charts is presentational; the one state effect kept is that when `audioData`
is loaded, `initWavesurfer()` destroys any previous wavesurfer instance and
creates a new one. -/
def updateUI (w : World) : World :=
  { w with sess := { w.sess with
      wavesurfer := if w.sess.audioData.isSome then some 0 else w.sess.wavesurfer } }

/-- `updateEmotionHistory(emotion)`: pushes `{ time, emotion }` onto
emotionHistory. -/
def updateEmotionHistory (s : SessionState) (now : Nat) (emotion : String) :
    SessionState :=
  { s with emotionHistory := s.emotionHistory ++ [{ time := now, emotion := emotion }] }

/-- Synchronous segment of `handleFileUpload(event)` up to `await fetch`:
reject non-audio MIME with a toast and return; otherwise set fileName,
isLoading, clear error, updateUI, and issue the request (numbered
`m.nextSeq`).  The event always carries a file here; selecting no file
(`if (!file) return`) is modelled by the action not occurring. -/
def handleFileUpload (m : Machine) (f : File) : Machine :=
  if mimeIsAudio f.mime then
    { m with
      w := updateUI { m.w with
        sess := { m.w.sess with fileName := f.name, isLoading := true, error := none } },
      pending := m.pending ++ [(m.nextSeq, PendingKind.upload f)],
      nextSeq := m.nextSeq + 1 }
  else
    { m with w := { m.w with toasts := m.w.toasts ++ ["Please upload an audio file"] } }

/-- Rest of `handleFileUpload` once its request settles: on success assign
detectedEmotion, probabilities, audioData (object URL of the file),
updateEmotionHistory, toast success; on failure assign error and toast the
message; in both cases the finally-block clears isLoading and calls
updateUI. -/
def handleFileUploadCont (m : Machine) (f : File) (r : Response) : Machine :=
  match r with
  | Response.ok res =>
      let s1 := updateEmotionHistory
        { m.w.sess with
          detectedEmotion := some res.emotion
          probabilities := some res.probabilities
          audioData := some f.id } m.w.clock res.emotion
      { m with w := updateUI { m.w with
          sess := { s1 with isLoading := false }
          toasts := m.w.toasts ++ ["Audio analysis complete"]
          clock := m.w.clock + 1 } }
  | Response.err msg =>
      { m with w := updateUI { m.w with
          sess := { m.w.sess with error := some msg, isLoading := false }
          toasts := m.w.toasts ++ [msg] } }

/-- Synchronous segment of `handleRealTimeAudioData(event)` up to
`await fetch`: it only builds the form data and issues the request.  The
`ondataavailable` event can only come from a recorder that was created, so
the action is a no-op when none exists (note the recorder variable is never
cleared, so a final chunk flushed by `stop()` still passes the guard). -/
def handleRealTimeAudioData (m : Machine) (blobId : Nat) : Machine :=
  if m.w.sess.mediaRecorder.isSome then
    { m with
      pending := m.pending ++ [(m.nextSeq, PendingKind.chunk blobId)],
      nextSeq := m.nextSeq + 1 }
  else m

/-- Rest of `handleRealTimeAudioData` once its request settles: on success
assign detectedEmotion and probabilities, updateEmotionHistory, updateUI
(no audioData, no toast, isLoading untouched); on failure only
`console.error(...)` — the catch writes no state and shows nothing. -/
def handleRealTimeAudioDataCont (m : Machine) (r : Response) : Machine :=
  match r with
  | Response.ok res =>
      let s1 := updateEmotionHistory
        { m.w.sess with
          detectedEmotion := some res.emotion
          probabilities := some res.probabilities } m.w.clock res.emotion
      { m with w := updateUI { m.w with sess := s1, clock := m.w.clock + 1 } }
  | Response.err msg =>
      { m with w := { m.w with
          consoleErrors := m.w.consoleErrors ++ ["Error in real-time analysis: " ++ msg] } }

/-- Settlement of the fetch for submission `i` (no such submission: no-op; a
promise settles once, so the submission leaves the in-flight set). -/
def resolveStep (m : Machine) (i : Nat) (r : Response) : Machine :=
  match pendingLookup m i with
  | none => m
  | some (PendingKind.upload f) =>
      handleFileUploadCont
        { m with pending := m.pending.filter (fun p => p.1 != i) } f r
  | some (PendingKind.chunk _) =>
      handleRealTimeAudioDataCont
        { m with pending := m.pending.filter (fun p => p.1 != i) } r

/-- `startRealTimeDetection()`: unconditionally sets isRealTimeMode and calls
`navigator.mediaDevices.getUserMedia` (counted in deviceRequests; the
promise is recorded in pendingDevice).  There is no already-active guard. -/
def startRealTimeDetection (m : Machine) : Machine :=
  { m with
    w := { m.w with
      sess := { m.w.sess with isRealTimeMode := true }
      deviceRequests := m.w.deviceRequests + 1 },
    pendingDevice := m.pendingDevice + 1 }

/-- `stopRealTimeDetection()`: clears isRealTimeMode and, when the
mediaRecorder variable is set, calls `mediaRecorder.stop()` (counted).  The
variable itself is never reset to null. -/
def stopRealTimeDetection (m : Machine) : Machine :=
  { m with w := { m.w with
      sess := { m.w.sess with isRealTimeMode := false }
      recorderStopCalls :=
        m.w.recorderStopCalls + (if m.w.sess.mediaRecorder.isSome then 1 else 0) } }

/-- `toggleRealTimeMode()`: stop when isRealTimeMode is set, start otherwise. -/
def toggleRealTimeMode (m : Machine) : Machine :=
  if m.w.sess.isRealTimeMode then stopRealTimeDetection m
  else startRealTimeDetection m

/-- The getUserMedia promise resolves: the then-branch creates a MediaRecorder
on the stream, installs handleRealTimeAudioData, and starts it with a 1000 ms
cadence.  No-op when no getUserMedia call is unsettled. -/
def deviceGranted (m : Machine) : Machine :=
  if m.pendingDevice = 0 then m
  else
    { m with
      w := { m.w with sess := { m.w.sess with mediaRecorder := some m.nextRecorderId } },
      pendingDevice := m.pendingDevice - 1,
      nextRecorderId := m.nextRecorderId + 1 }

/-- The getUserMedia promise rejects: the catch only logs to the console and
shows a toast; no global is written (in particular isRealTimeMode keeps the
value the start call gave it).  No-op when no getUserMedia call is
unsettled. -/
def deviceDenied (m : Machine) : Machine :=
  if m.pendingDevice = 0 then m
  else
    { m with
      w := { m.w with
        consoleErrors := m.w.consoleErrors ++ ["Error accessing microphone"]
        toasts := m.w.toasts ++ ["Unable to access microphone"] },
      pendingDevice := m.pendingDevice - 1 }

/-- `toggleMute()`: flips isMuted; `wavesurfer.setMute` is only called behind
an `if (wavesurfer)` guard, so the handler also succeeds with no audio
loaded (the setMute call itself has no modelled state effect). -/
def toggleMute (m : Machine) : Machine :=
  { m with w := { m.w with sess := { m.w.sess with isMuted := !m.w.sess.isMuted } } }

/-- One schedulable synchronous segment of the program. -/
inductive Action where
  | uploadFile (f : File)
  | chunkData (blobId : Nat)
  | resolve (i : Nat) (r : Response)
  | toggleRT
  | grant
  | deny
  | clickMute
deriving DecidableEq, Repr

/-- Dispatch one segment. -/
def step (m : Machine) : Action → Machine
  | Action.uploadFile f => handleFileUpload m f
  | Action.chunkData b => handleRealTimeAudioData m b
  | Action.resolve i r => resolveStep m i r
  | Action.toggleRT => toggleRealTimeMode m
  | Action.grant => deviceGranted m
  | Action.deny => deviceDenied m
  | Action.clickMute => toggleMute m

/-- Run a schedule. -/
def run : Machine → List Action → Machine
  | m, [] => m
  | m, a :: acts => run (step m a) acts

/-- Initial values of the module-level variables. -/
def initSession : SessionState :=
  { detectedEmotion := none
    probabilities := none
    isLoading := false
    error := none
    audioData := none
    fileName := ""
    isPlaying := false
    volume := 1
    isMuted := false
    emotionHistory := []
    isRealTimeMode := false
    mediaRecorder := none
    wavesurfer := none }

/-- Freshly-loaded page. -/
def initMachine : Machine :=
  { w := { sess := initSession
           toasts := []
           consoleErrors := []
           deviceRequests := 0
           recorderStopCalls := 0
           clock := 0 }
    nextSeq := 0
    pending := []
    pendingDevice := 0
    nextRecorderId := 0 }

/-- Does this action append a history entry here: a settlement, with a success
response, of a submission actually in flight. -/
def effectiveOk (m : Machine) : Action → Bool
  | Action.resolve i (Response.ok _) => (pendingLookup m i).isSome
  | _ => false

/-- Number of history-appending settlements along a schedule. -/
def countOk : Machine → List Action → Nat
  | _, [] => 0
  | m, a :: acts => (if effectiveOk m a then 1 else 0) + countOk (step m a) acts

end SPMEV

namespace SPMEV

/-- updateUI only touches the wavesurfer field of the session. -/
theorem updateUI_sess_fields (w : World) :
    (updateUI w).sess.detectedEmotion = w.sess.detectedEmotion
  ∧ (updateUI w).sess.isLoading = w.sess.isLoading
  ∧ (updateUI w).sess.emotionHistory = w.sess.emotionHistory := by
  simp [updateUI]

/-- One step changes the history length by one exactly on an effective
successful settlement, and never otherwise. -/
theorem step_history_length (m : Machine) (a : Action) :
    ((step m a).w.sess.emotionHistory).length
      = m.w.sess.emotionHistory.length + (if effectiveOk m a then 1 else 0) := by
  cases a with
  | uploadFile f =>
      simp only [step, handleFileUpload, effectiveOk, updateUI]
      split <;> simp
  | chunkData b =>
      simp only [step, handleRealTimeAudioData, effectiveOk]
      split <;> simp
  | resolve i r =>
      simp only [step, resolveStep, effectiveOk]
      cases h : pendingLookup m i with
      | none => cases r <;> simp [h]
      | some k =>
          cases k with
          | upload f =>
              cases r with
              | ok res => simp [h, handleFileUploadCont, updateUI, updateEmotionHistory]
              | err msg => simp [h, handleFileUploadCont, updateUI]
          | chunk b =>
              cases r with
              | ok res => simp [h, handleRealTimeAudioDataCont, updateUI, updateEmotionHistory]
              | err msg => simp [h, handleRealTimeAudioDataCont]
  | toggleRT =>
      simp only [step, toggleRealTimeMode, effectiveOk, startRealTimeDetection,
        stopRealTimeDetection]
      split <;> simp
  | grant =>
      simp only [step, deviceGranted, effectiveOk]
      split <;> simp
  | deny =>
      simp only [step, deviceDenied, effectiveOk]
      split <;> simp
  | clickMute => simp [step, toggleMute, effectiveOk]

/-- Along any schedule, the history length grows by exactly the number of
effective successful settlements. -/
theorem run_history_length (m : Machine) (acts : List Action) :
    ((run m acts).w.sess.emotionHistory).length
      = m.w.sess.emotionHistory.length + countOk m acts := by
  induction acts generalizing m with
  | nil => simp [run, countOk]
  | cons a acts ih =>
      simp only [run, countOk]
      rw [ih (step m a), step_history_length]
      omega

/-- Claim C1, counterexample.  Two uploads are issued (sequence numbers 0 then
1); the response of sequence 1 (emotion neutral) resolves first, then the
response of sequence 0 (emotion happy) resolves.  The highest sequence number
resolved so far is 1, so the claim requires the displayed emotion to be
neutral; the code displays happy — each response handler overwrites
detectedEmotion and probabilities unconditionally, so the older submission
that resolves later wins. -/
theorem C1_counterexample :
    ((run initMachine
        [Action.uploadFile ⟨"a.wav", "audio/wav", 1⟩,
         Action.uploadFile ⟨"b.wav", "audio/wav", 2⟩,
         Action.resolve 1 (Response.ok ⟨"neutral", [("neutral", 80)]⟩),
         Action.resolve 0 (Response.ok ⟨"happy", [("happy", 90)]⟩)]).w.sess.detectedEmotion
      = some ("happy"))
  ∧ ((run initMachine
        [Action.uploadFile ⟨"a.wav", "audio/wav", 1⟩,
         Action.uploadFile ⟨"b.wav", "audio/wav", 2⟩,
         Action.resolve 1 (Response.ok ⟨"neutral", [("neutral", 80)]⟩),
         Action.resolve 0 (Response.ok ⟨"happy", [("happy", 90)]⟩)]).w.sess.probabilities
      = some [("happy", 90)])
  ∧ some ("happy") ≠ some ("neutral") :=
  ⟨by decide, by decide, by decide⟩

/-- Claim C1, amended: the displayed current emotion and probabilities always
equal the most recently resolved successful result — resolve order wins, with
no sequence-number comparison — and every successful settlement, older or
newer, both overwrites the current emotion and appends to the history log. -/
theorem C1_amended (m : Machine) (i : Nat) (res : ClassificationResult) :
    ((step m (Action.resolve i (Response.ok res))).w.sess.detectedEmotion
        = if (pendingLookup m i).isSome then some res.emotion else m.w.sess.detectedEmotion)
  ∧ ((step m (Action.resolve i (Response.ok res))).w.sess.probabilities
        = if (pendingLookup m i).isSome then some res.probabilities
          else m.w.sess.probabilities)
  ∧ ((step m (Action.resolve i (Response.ok res))).w.sess.emotionHistory
        = if (pendingLookup m i).isSome
          then m.w.sess.emotionHistory ++ [{ time := m.w.clock, emotion := res.emotion }]
          else m.w.sess.emotionHistory) := by
  cases h : pendingLookup m i with
  | none => simp [step, resolveStep, h]
  | some k =>
      cases k <;>
        simp [step, resolveStep, h, handleFileUploadCont, handleRealTimeAudioDataCont,
          updateUI, updateEmotionHistory]

/-- Claim C2, counterexample.  Two submissions issued in order 0 then 1, whose
responses resolve in the opposite order: the history records the emotions in
resolve order (neutral then happy), not in issue order (happy then neutral) —
updateEmotionHistory is called when a response arrives, with no reordering. -/
theorem C2_counterexample :
    ((run initMachine
        [Action.uploadFile ⟨"a.wav", "audio/wav", 1⟩,
         Action.uploadFile ⟨"b.wav", "audio/wav", 2⟩,
         Action.resolve 1 (Response.ok ⟨"neutral", [("neutral", 80)]⟩),
         Action.resolve 0 (Response.ok ⟨"happy", [("happy", 90)]⟩)]).w.sess.emotionHistory.map
        (fun e => e.emotion)
      = ["neutral", "happy"])
  ∧ (["neutral", "happy"] ≠ ["happy", "neutral"]) :=
  ⟨by decide, by decide⟩

/-- Claim C2, amended: after N successful submissions the history has exactly
N entries (each effective successful settlement appends exactly one entry,
and nothing else changes the history), but their order is the order in which
the responses resolved, not the order in which the requests were issued. -/
theorem C2_amended (m : Machine) (acts : List Action) (i : Nat)
    (res : ClassificationResult) :
    (((run m acts).w.sess.emotionHistory).length
        = m.w.sess.emotionHistory.length + countOk m acts)
  ∧ ((step m (Action.resolve i (Response.ok res))).w.sess.emotionHistory
        = if (pendingLookup m i).isSome
          then m.w.sess.emotionHistory ++ [{ time := m.w.clock, emotion := res.emotion }]
          else m.w.sess.emotionHistory) := by
  refine ⟨run_history_length m acts, ?_⟩
  cases h : pendingLookup m i with
  | none => simp [step, resolveStep, h]
  | some k =>
      cases k <;>
        simp [step, resolveStep, h, handleFileUploadCont, handleRealTimeAudioDataCont,
          updateUI, updateEmotionHistory]

/-- Claim C3, counterexample.  Two uploads overlap; when the first settles,
its finally-block clears isLoading even though the second upload request is
still in flight, so the loading flag is not true exactly when an upload
request is in flight. -/
theorem C3_counterexample :
    ((run initMachine
        [Action.uploadFile ⟨"a.wav", "audio/wav", 1⟩,
         Action.uploadFile ⟨"b.wav", "audio/wav", 2⟩,
         Action.resolve 0 (Response.ok ⟨"happy", [("happy", 90)]⟩)]).w.sess.isLoading
      = false)
  ∧ ((run initMachine
        [Action.uploadFile ⟨"a.wav", "audio/wav", 1⟩,
         Action.uploadFile ⟨"b.wav", "audio/wav", 2⟩,
         Action.resolve 0 (Response.ok ⟨"happy", [("happy", 90)]⟩)]).pending
      = [(1, PendingKind.upload ⟨"b.wav", "audio/wav", 2⟩)]) :=
  ⟨by decide, by decide⟩

/-- Claim C3, amended: every upload submission sets the loading flag at issue
time and the settlement of an upload clears it (success or failure alike);
chunk submissions, chunk settlements (also ones completing after real-time
mode is stopped), the real-time toggle, device grant and denial, and the
mute button never change it.  The exactly-when part of the claim fails only
for overlapping uploads (see the counterexample): the first upload to settle
clears the flag while the second is still in flight. -/
theorem C3_amended (m : Machine) (f : File) (b i : Nat) (r : Response) :
    ((step m (Action.uploadFile f)).w.sess.isLoading
        = if mimeIsAudio f.mime then true else m.w.sess.isLoading)
  ∧ ((step m (Action.chunkData b)).w.sess.isLoading = m.w.sess.isLoading)
  ∧ ((step m (Action.resolve i r)).w.sess.isLoading
        = match pendingLookup m i with
          | some (PendingKind.upload _) => false
          | _ => m.w.sess.isLoading)
  ∧ ((step m Action.toggleRT).w.sess.isLoading = m.w.sess.isLoading)
  ∧ ((step m Action.grant).w.sess.isLoading = m.w.sess.isLoading)
  ∧ ((step m Action.deny).w.sess.isLoading = m.w.sess.isLoading)
  ∧ ((step m Action.clickMute).w.sess.isLoading = m.w.sess.isLoading) := by
  refine ⟨?_, ?_, ?_, ?_, ?_, ?_, ?_⟩
  · simp only [step, handleFileUpload, updateUI]
    split <;> simp
  · simp only [step, handleRealTimeAudioData]
    split <;> simp
  · cases h : pendingLookup m i with
    | none => simp [step, resolveStep, h]
    | some k =>
        cases k with
        | upload f2 =>
            cases r <;>
              simp [step, resolveStep, h, handleFileUploadCont, updateUI,
                updateEmotionHistory]
        | chunk b2 =>
            cases r <;>
              simp [step, resolveStep, h, handleRealTimeAudioDataCont, updateUI,
                updateEmotionHistory]
  · simp only [step, toggleRealTimeMode, startRealTimeDetection, stopRealTimeDetection]
    split <;> simp
  · simp only [step, deviceGranted]
    split <;> simp
  · simp only [step, deviceDenied]
    split <;> simp
  · simp [step, toggleMute]

/-- Claim C4: a selected file whose MIME type is not an audio type is
rejected with a user-visible toast before the request is issued (the
in-flight set and the sequence counter are untouched), and no session state
at all is modified by the rejection. -/
theorem C4_confirmed (m : Machine) (f : File) (h : mimeIsAudio f.mime = false) :
    ((step m (Action.uploadFile f)).w.sess = m.w.sess)
  ∧ ((step m (Action.uploadFile f)).pending = m.pending)
  ∧ ((step m (Action.uploadFile f)).nextSeq = m.nextSeq)
  ∧ ((step m (Action.uploadFile f)).w.toasts
      = m.w.toasts ++ ["Please upload an audio file"]) := by
  simp [step, handleFileUpload, h]

/-- Claim C4, witness: selecting a text/plain file on a freshly-loaded page. -/
theorem C4_witness :
    (mimeIsAudio ("text/plain" : String) = false)
  ∧ (((step initMachine (Action.uploadFile ⟨"notes.txt", "text/plain", 0⟩)).w.sess
        = initMachine.w.sess)
     ∧ ((step initMachine (Action.uploadFile ⟨"notes.txt", "text/plain", 0⟩)).pending
        = initMachine.pending)
     ∧ ((step initMachine (Action.uploadFile ⟨"notes.txt", "text/plain", 0⟩)).nextSeq
        = initMachine.nextSeq)
     ∧ ((step initMachine (Action.uploadFile ⟨"notes.txt", "text/plain", 0⟩)).w.toasts
        = initMachine.w.toasts ++ ["Please upload an audio file"])) :=
  ⟨by decide, C4_confirmed initMachine ⟨"notes.txt", "text/plain", 0⟩ (by decide)⟩

/-- Claim C5, counterexample.  From a state where capture is active (real-time
mode on, recorder granted, one device acquisition so far), a call of
startRealTimeDetection acquires the capture device a second time and changes
the machine, so it is not a no-op returning the existing session. -/
theorem C5_counterexample :
    ((run initMachine [Action.toggleRT, Action.grant]).w.sess.isRealTimeMode = true)
  ∧ ((run initMachine [Action.toggleRT, Action.grant]).w.sess.mediaRecorder.isSome = true)
  ∧ ((run initMachine [Action.toggleRT, Action.grant]).w.deviceRequests = 1)
  ∧ ((startRealTimeDetection
        (run initMachine [Action.toggleRT, Action.grant])).w.deviceRequests = 2)
  ∧ (startRealTimeDetection (run initMachine [Action.toggleRT, Action.grant])
      ≠ run initMachine [Action.toggleRT, Action.grant]) :=
  ⟨by decide, by decide, by decide, by decide, by decide⟩

/-- Claim C5, amended: startRealTimeDetection has no already-active guard —
every call, from any state, requests the capture device again; only the
toggle entry point avoids a second acquisition, because it stops instead of
starting when real-time mode is already on. -/
theorem C5_amended (m : Machine) :
    ((startRealTimeDetection m).w.deviceRequests = m.w.deviceRequests + 1)
  ∧ ((startRealTimeDetection m).w.sess.isRealTimeMode = true)
  ∧ ((step m Action.toggleRT).w.deviceRequests
      = if m.w.sess.isRealTimeMode then m.w.deviceRequests else m.w.deviceRequests + 1) := by
  refine ⟨rfl, rfl, ?_⟩
  simp only [step, toggleRealTimeMode, startRealTimeDetection, stopRealTimeDetection]
  split <;> simp

/-- Claim C6, counterexample.  With a granted recorder, the first stop call
invokes the recorder stop once; the second call invokes it again (two calls
in total), because the mediaRecorder variable is never cleared, so the
if-mediaRecorder guard passes again. -/
theorem C6_counterexample :
    ((stopRealTimeDetection
        (run initMachine [Action.toggleRT, Action.grant])).w.recorderStopCalls = 1)
  ∧ ((stopRealTimeDetection (stopRealTimeDetection
        (run initMachine [Action.toggleRT, Action.grant]))).w.recorderStopCalls = 2) :=
  ⟨by decide, by decide⟩

/-- Claim C6, amended: calling stop twice in a row leaves the same session
state as calling it once, but the second call is not free of device release —
it invokes the recorder stop one more time whenever a recorder exists. -/
theorem C6_amended (m : Machine) :
    ((stopRealTimeDetection (stopRealTimeDetection m)).w.sess
      = (stopRealTimeDetection m).w.sess)
  ∧ ((stopRealTimeDetection (stopRealTimeDetection m)).w.recorderStopCalls
      = (stopRealTimeDetection m).w.recorderStopCalls
        + (if m.w.sess.mediaRecorder.isSome then 1 else 0)) := by
  refine ⟨rfl, ?_⟩
  simp [stopRealTimeDetection]

/-- Claim C7, counterexample.  Start is clicked, then the device request is
denied: the toast is surfaced, but isRealTimeMode is still true afterwards —
the catch never resets it, so real-time mode is left marked active instead of
returning to Idle. -/
theorem C7_counterexample :
    ((run initMachine [Action.toggleRT, Action.deny]).w.toasts
      = ["Unable to access microphone"])
  ∧ ((run initMachine [Action.toggleRT, Action.deny]).w.sess.isRealTimeMode = true) :=
  ⟨by decide, by decide⟩

/-- Claim C7, amended: a device denial surfaces a non-fatal user-visible
toast and a console log, but writes no session state at all — in particular
isRealTimeMode keeps the value true that the start call gave it, so the
capture state does not return to Idle. -/
theorem C7_amended (m : Machine) :
    ((step m Action.deny).w.sess = m.w.sess)
  ∧ ((step m Action.deny).w.toasts
      = if m.pendingDevice = 0 then m.w.toasts
        else m.w.toasts ++ ["Unable to access microphone"])
  ∧ ((step m Action.deny).w.consoleErrors
      = if m.pendingDevice = 0 then m.w.consoleErrors
        else m.w.consoleErrors ++ ["Error accessing microphone"]) := by
  refine ⟨?_, ?_, ?_⟩ <;>
    · simp only [step, deviceDenied]
      split <;> simp

/-- Claim C8, counterexample.  A real-time chunk submission fails: afterwards
the error field is still empty and no toast was shown — the chunk catch only
writes a console line, contradicting the claim that every external error is
recorded in the error field plus a user-visible notification. -/
theorem C8_counterexample :
    ((run initMachine [Action.toggleRT, Action.grant, Action.chunkData 0,
        Action.resolve 0 (Response.err ("Failed to analyze audio"))]).w.sess.error = none)
  ∧ ((run initMachine [Action.toggleRT, Action.grant, Action.chunkData 0,
        Action.resolve 0 (Response.err ("Failed to analyze audio"))]).w.toasts = [])
  ∧ ((run initMachine [Action.toggleRT, Action.grant, Action.chunkData 0,
        Action.resolve 0 (Response.err ("Failed to analyze audio"))]).w.consoleErrors
      = ["Error in real-time analysis: Failed to analyze audio"]) :=
  ⟨by decide, by decide, by decide⟩

/-- Claim C8, amended: every external error is caught at the handler boundary
and none terminates the program, but the conversion differs by path — an
upload error is recorded in the error field of the session state and toasted,
while a chunk error is only logged to the console, leaving the error field
and the notifications untouched. -/
theorem C8_amended (m : Machine) (i : Nat) (msg : String) :
    ((step m (Action.resolve i (Response.err msg))).w.sess.error
        = match pendingLookup m i with
          | some (PendingKind.upload _) => some msg
          | _ => m.w.sess.error)
  ∧ ((step m (Action.resolve i (Response.err msg))).w.toasts
        = match pendingLookup m i with
          | some (PendingKind.upload _) => m.w.toasts ++ [msg]
          | _ => m.w.toasts)
  ∧ ((step m (Action.resolve i (Response.err msg))).w.consoleErrors
        = match pendingLookup m i with
          | some (PendingKind.chunk _) =>
              m.w.consoleErrors ++ ["Error in real-time analysis: " ++ msg]
          | _ => m.w.consoleErrors) := by
  cases h : pendingLookup m i with
  | none => simp [step, resolveStep, h]
  | some k =>
      cases k <;>
        simp [step, resolveStep, h, handleFileUploadCont, handleRealTimeAudioDataCont,
          updateUI]

/-- Claim C9: when an upload is issued and its request then fails, the
current emotion, probabilities, loaded audio data and emotion history all
keep the values they had before the upload, and the error field records the
failure — but the stored file name was already overwritten at issue time,
before the request was sent, so it names the failed upload.  The freshness
hypothesis (no in-flight submission already carries the next sequence
number) holds in every reachable state. -/
theorem C9_confirmed (m : Machine) (f : File) (msg : String)
    (haud : mimeIsAudio f.mime = true)
    (hfresh : pendingLookup m m.nextSeq = none) :
    ((step m (Action.uploadFile f)).w.sess.fileName = f.name)
  ∧ ((step (step m (Action.uploadFile f))
        (Action.resolve m.nextSeq (Response.err msg))).w.sess.fileName = f.name)
  ∧ ((step (step m (Action.uploadFile f))
        (Action.resolve m.nextSeq (Response.err msg))).w.sess.detectedEmotion
      = m.w.sess.detectedEmotion)
  ∧ ((step (step m (Action.uploadFile f))
        (Action.resolve m.nextSeq (Response.err msg))).w.sess.probabilities
      = m.w.sess.probabilities)
  ∧ ((step (step m (Action.uploadFile f))
        (Action.resolve m.nextSeq (Response.err msg))).w.sess.audioData
      = m.w.sess.audioData)
  ∧ ((step (step m (Action.uploadFile f))
        (Action.resolve m.nextSeq (Response.err msg))).w.sess.emotionHistory
      = m.w.sess.emotionHistory)
  ∧ ((step (step m (Action.uploadFile f))
        (Action.resolve m.nextSeq (Response.err msg))).w.sess.error = some msg) := by
  have hfind : m.pending.find? (fun p => p.1 == m.nextSeq) = none := by
    unfold pendingLookup at hfresh
    exact Option.map_eq_none'.mp hfresh
  have hlook : pendingLookup (handleFileUpload m f) m.nextSeq
      = some (PendingKind.upload f) := by
    simp [handleFileUpload, haud, pendingLookup, List.find?_append, hfind, updateUI]
  refine ⟨?_, ?_, ?_, ?_, ?_, ?_, ?_⟩ <;>
    · simp only [step, resolveStep, hlook]
      simp [handleFileUploadCont, step, handleFileUpload, haud, updateUI]

/-- Claim C9, witness: an audio upload failing on a freshly-loaded page. -/
theorem C9_witness :
    (mimeIsAudio ("audio/wav" : String) = true)
  ∧ (pendingLookup initMachine initMachine.nextSeq = none)
  ∧ (((step initMachine (Action.uploadFile ⟨"a.wav", "audio/wav", 7⟩)).w.sess.fileName
        = "a.wav")
     ∧ ((step (step initMachine (Action.uploadFile ⟨"a.wav", "audio/wav", 7⟩))
          (Action.resolve initMachine.nextSeq
            (Response.err ("Failed to analyze audio")))).w.sess.fileName = "a.wav")
     ∧ ((step (step initMachine (Action.uploadFile ⟨"a.wav", "audio/wav", 7⟩))
          (Action.resolve initMachine.nextSeq
            (Response.err ("Failed to analyze audio")))).w.sess.detectedEmotion
        = initMachine.w.sess.detectedEmotion)
     ∧ ((step (step initMachine (Action.uploadFile ⟨"a.wav", "audio/wav", 7⟩))
          (Action.resolve initMachine.nextSeq
            (Response.err ("Failed to analyze audio")))).w.sess.probabilities
        = initMachine.w.sess.probabilities)
     ∧ ((step (step initMachine (Action.uploadFile ⟨"a.wav", "audio/wav", 7⟩))
          (Action.resolve initMachine.nextSeq
            (Response.err ("Failed to analyze audio")))).w.sess.audioData
        = initMachine.w.sess.audioData)
     ∧ ((step (step initMachine (Action.uploadFile ⟨"a.wav", "audio/wav", 7⟩))
          (Action.resolve initMachine.nextSeq
            (Response.err ("Failed to analyze audio")))).w.sess.emotionHistory
        = initMachine.w.sess.emotionHistory)
     ∧ ((step (step initMachine (Action.uploadFile ⟨"a.wav", "audio/wav", 7⟩))
          (Action.resolve initMachine.nextSeq
            (Response.err ("Failed to analyze audio")))).w.sess.error
        = some ("Failed to analyze audio"))) :=
  ⟨by decide, by decide,
   C9_confirmed initMachine ⟨"a.wav", "audio/wav", 7⟩ ("Failed to analyze audio")
     (by decide) (by decide)⟩

/-- Claim C10: toggling mute is an involution on the muted flag — two calls
restore it, one call flips it — and the handler is total from every state,
also when no audio is loaded: the setMute call sits behind an if-wavesurfer
guard, so the flip itself never depends on a loaded audio handle. -/
theorem C10_confirmed (m : Machine) :
    ((toggleMute (toggleMute m)).w.sess.isMuted = m.w.sess.isMuted)
  ∧ ((toggleMute m).w.sess.isMuted = !m.w.sess.isMuted) := by
  refine ⟨?_, rfl⟩
  simp [toggleMute]

end SPMEV
